import Mathlib

/-!
Shallow embedding of the MySQL MCP server adapter (`src/index.ts`).

The adapter keeps a small mutable manager state (active pool, current
configuration, auto-connect flag, default configuration) and exposes tool
handlers that validate a configuration bag, delegate to the driver's pool,
and serialize results.  Here the driver is modelled by a `World` record of
oracles (whether the liveness ping for a configuration succeeds, and what a
parameterized execute returns), pool objects carry an allocation id so that
distinct `createPool` results are distinct references, and every handler
returns its protocol result, the successor state, and the trace of driver
calls it issued.
-/

namespace MySQLMCP

/-- A loosely typed JSON-ish value, as found in a tool-call argument bag. -/
inductive JVal where
  | jstr (s : String)
  | jnum (n : Int)
  | jbool (b : Bool)
  deriving DecidableEq, Repr

/-- The raw argument bag handed to `mysql_connect` / `mysql_setup_persistent`:
each schema field is either absent or some JSON value of arbitrary type. -/
structure RawConfig where
  host : Option JVal := none
  port : Option JVal := none
  user : Option JVal := none
  password : Option JVal := none
  database : Option JVal := none
  ssl : Option JVal := none
  connectionLimit : Option JVal := none
  deriving DecidableEq, Repr

/-- A parsed configuration (`type Config = z.infer<typeof ConfigSchema>`). -/
structure Config where
  host : String
  port : Int
  user : String
  password : String
  database : Option String
  ssl : Bool
  connectionLimit : Int
  deriving DecidableEq, Repr

/-- `z.string().default(d)`: absent yields the default, a string passes,
any other type fails. -/
def parseStrD (v : Option JVal) (d : String) : Option String :=
  match v with
  | none => some d
  | some (.jstr s) => some s
  | some _ => none

/-- `z.string()` (required): present and a string, else failure. -/
def parseReqStr (v : Option JVal) : Option String :=
  match v with
  | some (.jstr s) => some s
  | _ => none

/-- `z.string().optional()`: absent is fine, a string passes, other types fail. -/
def parseOptStr (v : Option JVal) : Option (Option String) :=
  match v with
  | none => some none
  | some (.jstr s) => some (some s)
  | some _ => none

/-- `z.number().default(d)`. -/
def parseNumD (v : Option JVal) (d : Int) : Option Int :=
  match v with
  | none => some d
  | some (.jnum n) => some n
  | some _ => none

/-- `z.boolean().default(d)`. -/
def parseBoolD (v : Option JVal) (d : Bool) : Option Bool :=
  match v with
  | none => some d
  | some (.jbool b) => some b
  | some _ => none

/-- `ConfigSchema.parse(args)`: validates the argument bag against the zod
schema, returning `none` where the source throws a `ZodError`. -/
def ConfigSchema.parse (r : RawConfig) : Option Config := do
  let host ← parseStrD r.host "localhost"
  let port ← parseNumD r.port 3306
  let user ← parseReqStr r.user
  let password ← parseReqStr r.password
  let database ← parseOptStr r.database
  let ssl ← parseBoolD r.ssl false
  let connectionLimit ← parseNumD r.connectionLimit 10
  some { host, port, user, password, database, ssl, connectionLimit }

/-- A pool object returned by `mysql.createPool`: the configuration it was
created from, tagged with an allocation id so distinct creations are
distinct references. -/
structure Pool where
  id : Nat
  cfg : Config
  deriving DecidableEq, Repr

/-- The mutable fields of `MySQLMCPServer`, plus the allocation counter for
pool identities. -/
structure ManagerState where
  pool : Option Pool
  config : Option Config
  autoConnect : Bool
  defaultConfig : Option Config
  nextId : Nat
  deriving DecidableEq, Repr

/-- The driver environment: whether the liveness check
(`getConnection` / `ping` / `release`) succeeds for a configuration, and the
outcome of `pool.execute(sql, params)` (serialized rows, or an error
message). -/
structure World where
  pingOk : Config → Bool
  execRes : Config → String → List String → Except String String

/-- One call into the MySQL driver, as issued by a handler. -/
inductive DriverCall where
  | createPool (cfg : Config)
  | ping (cfg : Config)
  | endPool (id : Nat)
  | execute (sql : String) (params : List String)
  deriving DecidableEq, Repr

/-- The protocol error codes used by the handlers. -/
inductive ErrorCode where
  | InvalidParams
  | InvalidRequest
  | InternalError
  | MethodNotFound
  deriving DecidableEq, Repr

/-- `McpError(code, message)`. -/
structure McpError where
  code : ErrorCode
  message : String
  deriving DecidableEq, Repr

deriving instance DecidableEq for Except

/-- A handler outcome: the returned text payload or thrown `McpError`, the
manager state after the call, and the driver calls made during it. -/
structure HOut where
  result : Except McpError String
  state : ManagerState
  calls : List DriverCall
  deriving DecidableEq, Repr

/-- The not-connected failure text shared by query/introspection handlers. -/
def notConnectedText : String :=
  "Not connected to MySQL. Please connect first using mysql_connect or mysql_setup_persistent."

/-- The success text of `mysql_disconnect`. -/
def disconnectOkText : String :=
  "Successfully disconnected from MySQL server"

/-- JavaScript `a || b` on possibly-absent strings: an empty string is falsy. -/
def jsOrStr (a b : Option String) : Option String :=
  match a with
  | some s => if s = "" then b else some s
  | none => b

/-- JavaScript truthiness of a possibly-absent string, keeping the value:
`none` exactly when the value is absent or the empty string. -/
def truthyStr : Option String → Option String
  | some s => if s = "" then none else some s
  | none => none

/-- JavaScript `v || d` where `v` is an environment variable. -/
def jsOrD (v : Option String) (d : String) : String :=
  match v with
  | some s => if s = "" then d else s
  | none => d

/-- `connectWithDefaultConfig`: with no default configuration, do nothing;
otherwise set `config` to the default, close any existing pool, create a new
pool, and run the liveness ping.  A ping failure is only logged (the `catch`
swallows it), so the resulting state does not depend on the ping outcome. -/
def connectWithDefaultConfig (w : World) (s : ManagerState) :
    ManagerState × List DriverCall :=
  match s.defaultConfig with
  | none => (s, [])
  | some d =>
    let s1 := { s with config := some d }
    let endCalls : List DriverCall :=
      match s1.pool with
      | some p => [DriverCall.endPool p.id]
      | none => []
    let p : Pool := ⟨s1.nextId, d⟩
    let s2 := { s1 with pool := some p, nextId := s1.nextId + 1 }
    let _ := w.pingOk d
    (s2, endCalls ++ [DriverCall.createPool d, DriverCall.ping d])

/-- The shared prologue of query/introspection handlers: auto-connect when
there is no pool and a default configuration exists. -/
def ensureConnected (w : World) (s : ManagerState) :
    ManagerState × List DriverCall :=
  match s.pool, s.defaultConfig with
  | none, some _ => connectWithDefaultConfig w s
  | _, _ => (s, [])

/-- The success text of `mysql_connect`, including the database suffix only
when the configured database is truthy. -/
def connectOkText (c : Config) : String :=
  "Successfully connected to MySQL server at " ++ c.host ++ ":" ++ toString c.port ++
    (match truthyStr c.database with
     | some d => " (database: " ++ d ++ ")"
     | none => "")

/-- `handleConnect`: parse the configuration (InvalidParams on schema
failure, state untouched); otherwise assign `config`, close any old pool,
assign the freshly created pool, then ping.  A ping failure throws
InvalidParams — after `config` and `pool` have already been reassigned. -/
def handleConnect (w : World) (s : ManagerState) (args : RawConfig) : HOut :=
  match ConfigSchema.parse args with
  | none =>
    ⟨.error ⟨.InvalidParams, "Failed to connect to MySQL: invalid configuration"⟩, s, []⟩
  | some c =>
    let s1 := { s with config := some c }
    let endCalls : List DriverCall :=
      match s1.pool with
      | some p => [DriverCall.endPool p.id]
      | none => []
    let p : Pool := ⟨s1.nextId, c⟩
    let s2 := { s1 with pool := some p, nextId := s1.nextId + 1 }
    let calls := endCalls ++ [DriverCall.createPool c, DriverCall.ping c]
    if w.pingOk c then
      ⟨.ok (connectOkText c), s2, calls⟩
    else
      ⟨.error ⟨.InvalidParams, "Failed to connect to MySQL: connection test failed"⟩,
        s2, calls⟩

/-- `handleQuery`: auto-connect if possible, fail InvalidRequest without a
pool, else execute the query text verbatim with positional parameters. -/
def handleQuery (w : World) (s : ManagerState) (q : String) (ps : List String) : HOut :=
  let sc := ensureConnected w s
  match sc.1.pool with
  | none => ⟨.error ⟨.InvalidRequest, notConnectedText⟩, sc.1, sc.2⟩
  | some p =>
    match w.execRes p.cfg q ps with
    | .ok rows => ⟨.ok rows, sc.1, sc.2 ++ [DriverCall.execute q ps]⟩
    | .error e =>
      ⟨.error ⟨.InvalidParams, "Query execution failed: " ++ e⟩,
        sc.1, sc.2 ++ [DriverCall.execute q ps]⟩

/-- `handleListDatabases`: same precondition, fixed `SHOW DATABASES`. -/
def handleListDatabases (w : World) (s : ManagerState) : HOut :=
  let sc := ensureConnected w s
  match sc.1.pool with
  | none => ⟨.error ⟨.InvalidRequest, notConnectedText⟩, sc.1, sc.2⟩
  | some p =>
    match w.execRes p.cfg "SHOW DATABASES" [] with
    | .ok rows => ⟨.ok rows, sc.1, sc.2 ++ [DriverCall.execute "SHOW DATABASES" []]⟩
    | .error e =>
      ⟨.error ⟨.InternalError, "Failed to list databases: " ++ e⟩,
        sc.1, sc.2 ++ [DriverCall.execute "SHOW DATABASES" []]⟩

/-- The statement built by `handleListTables`:
`const dbName = database || this.config?.database` followed by
`if (dbName) query = 'SHOW TABLES FROM \x60dbName\x60'`. -/
def listTablesQuery (database cfgDatabase : Option String) : String :=
  match truthyStr (jsOrStr database cfgDatabase) with
  | some d => "SHOW TABLES FROM `" ++ d ++ "`"
  | none => "SHOW TABLES"

/-- `handleListTables`. -/
def handleListTables (w : World) (s : ManagerState) (database : Option String) : HOut :=
  let sc := ensureConnected w s
  match sc.1.pool with
  | none => ⟨.error ⟨.InvalidRequest, notConnectedText⟩, sc.1, sc.2⟩
  | some p =>
    let q := listTablesQuery database (sc.1.config.bind Config.database)
    match w.execRes p.cfg q [] with
    | .ok rows => ⟨.ok rows, sc.1, sc.2 ++ [DriverCall.execute q []]⟩
    | .error e =>
      ⟨.error ⟨.InternalError, "Failed to list tables: " ++ e⟩,
        sc.1, sc.2 ++ [DriverCall.execute q []]⟩

/-- The statement built by `handleDescribeTable`: the table (and the
database, when truthy) spliced verbatim between backticks. -/
def describeTableQuery (table : String) (database cfgDatabase : Option String) : String :=
  match truthyStr (jsOrStr database cfgDatabase) with
  | some d => "DESCRIBE `" ++ d ++ "`.`" ++ table ++ "`"
  | none => "DESCRIBE `" ++ table ++ "`"

/-- `handleDescribeTable`. -/
def handleDescribeTable (w : World) (s : ManagerState) (table : String)
    (database : Option String) : HOut :=
  let sc := ensureConnected w s
  match sc.1.pool with
  | none => ⟨.error ⟨.InvalidRequest, notConnectedText⟩, sc.1, sc.2⟩
  | some p =>
    let q := describeTableQuery table database (sc.1.config.bind Config.database)
    match w.execRes p.cfg q [] with
    | .ok rows => ⟨.ok rows, sc.1, sc.2 ++ [DriverCall.execute q []]⟩
    | .error e =>
      ⟨.error ⟨.InternalError, "Failed to describe table: " ++ e⟩,
        sc.1, sc.2 ++ [DriverCall.execute q []]⟩

/-- `handleDisconnect`: end and clear the pool and current configuration
when a pool is present; always return the success text. -/
def handleDisconnect (s : ManagerState) : HOut :=
  match s.pool with
  | some p =>
    ⟨.ok disconnectOkText, { s with pool := none, config := none },
      [DriverCall.endPool p.id]⟩
  | none => ⟨.ok disconnectOkText, s, []⟩

/-- The success text of `mysql_setup_persistent`. -/
def setupOkText (c : Config) : String :=
  "Persistent connection setup successful! Server will auto-connect to " ++
    c.host ++ ":" ++ toString c.port ++ " (database: " ++
    (match c.database with | some d => d | none => "undefined") ++
    ") for all future requests."

/-- `handleSetupPersistent`: parse (InvalidParams on failure, state
untouched), store the default configuration, enable auto-connect, and run
`connectWithDefaultConfig` (which never throws). -/
def handleSetupPersistent (w : World) (s : ManagerState) (args : RawConfig) : HOut :=
  match ConfigSchema.parse args with
  | none =>
    ⟨.error ⟨.InvalidParams, "Failed to setup persistent connection: invalid configuration"⟩,
      s, []⟩
  | some c =>
    let s1 := { s with defaultConfig := some c, autoConnect := true }
    let sc := connectWithDefaultConfig w s1
    ⟨.ok (setupOkText c), sc.1, sc.2⟩

/-- The status text of `mysql_status` (`undefined` rendering of a missing
database field mirrors JS string interpolation). -/
def statusText (w : World) (s : ManagerState) : String :=
  let base := "Connection Status: " ++
    (if s.pool.isSome then "Connected" else "Disconnected") ++ "\n" ++
    "Auto-Connect: " ++ (if s.autoConnect then "Enabled" else "Disabled") ++ "\n"
  let withCfg :=
    match s.config with
    | some c => base ++ "Host: " ++ c.host ++ ":" ++ toString c.port ++ "\n" ++
        "Database: " ++ (match c.database with | some d => d | none => "undefined") ++
        "\n" ++ "User: " ++ c.user ++ "\n"
    | none => base
  match s.pool with
  | some p =>
    withCfg ++ (if w.pingOk p.cfg then "Connection Health: Healthy"
                else "Connection Health: Unhealthy")
  | none => withCfg

/-- `handleStatus`: reports, never throws, never mutates. -/
def handleStatus (w : World) (s : ManagerState) : HOut :=
  let calls : List DriverCall :=
    match s.pool with
    | some p => [DriverCall.ping p.cfg]
    | none => []
  ⟨.ok (statusText w s), s, calls⟩

/-- The environment variables read by `loadDefaultConfig`. -/
structure Env where
  host : Option String := none
  port : Option String := none
  user : Option String := none
  password : Option String := none
  database : Option String := none
  ssl : Option String := none
  connectionLimit : Option String := none

/-- JS `parseInt` restricted to the decimal numerals this code feeds it; a
non-numeral (NaN in the source) is modelled as 0, a value no claim observes. -/
def parseIntJS (s : String) : Int :=
  (s.toInt?).getD 0

/-- The default configuration `loadDefaultConfig` builds from the
environment (note `database` is always a present, possibly empty, string). -/
def defaultConfigFromEnv (e : Env) : Config :=
  { host := jsOrD e.host "localhost"
    port := parseIntJS (jsOrD e.port "3306")
    user := jsOrD e.user ""
    password := jsOrD e.password ""
    database := some (jsOrD e.database "")
    ssl := e.ssl == some "true"
    connectionLimit := parseIntJS (jsOrD e.connectionLimit "10") }

/-- The constructor's state: fields start empty, `loadDefaultConfig` always
stores the environment-derived default configuration, and when both user
and password are non-empty it enables auto-connect and connects. -/
def initState (w : World) (e : Env) : ManagerState :=
  let d := defaultConfigFromEnv e
  let s0 : ManagerState :=
    { pool := none, config := none, autoConnect := false,
      defaultConfig := some d, nextId := 0 }
  if d.user ≠ "" ∧ d.password ≠ "" then
    (connectWithDefaultConfig w { s0 with autoConnect := true }).1
  else s0

/-- One tool invocation, as a step between manager states (the world and
the arguments are arbitrary per step). -/
inductive Step : ManagerState → ManagerState → Prop where
  | connect (w : World) (s : ManagerState) (args : RawConfig) :
      Step s (handleConnect w s args).state
  | query (w : World) (s : ManagerState) (q : String) (ps : List String) :
      Step s (handleQuery w s q ps).state
  | listDatabases (w : World) (s : ManagerState) :
      Step s (handleListDatabases w s).state
  | listTables (w : World) (s : ManagerState) (db : Option String) :
      Step s (handleListTables w s db).state
  | describeTable (w : World) (s : ManagerState) (t : String) (db : Option String) :
      Step s (handleDescribeTable w s t db).state
  | disconnect (s : ManagerState) :
      Step s (handleDisconnect s).state
  | setupPersistent (w : World) (s : ManagerState) (args : RawConfig) :
      Step s (handleSetupPersistent w s args).state
  | status (w : World) (s : ManagerState) :
      Step s (handleStatus w s).state

/-- States reachable from some startup environment by tool invocations. -/
inductive Reachable : ManagerState → Prop where
  | init (w : World) (e : Env) : Reachable (initState w e)
  | step {s s' : ManagerState} : Reachable s → Step s s' → Reachable s'

/-! Concrete fixtures used by closed theorems. -/

/-- A driver environment in which every ping and execute succeeds. -/
def wOk : World := ⟨fun _ => true, fun _ _ _ => .ok "[]"⟩

/-- A driver environment in which the server is unreachable. -/
def wDown : World := ⟨fun _ => false, fun _ _ _ => .error "connect ECONNREFUSED"⟩

/-- The fully disconnected state with no default configuration. -/
def emptyState : ManagerState :=
  { pool := none, config := none, autoConnect := false, defaultConfig := none, nextId := 0 }

/-- A sample parsed configuration with a configured database. -/
def sampleConfig : Config :=
  { host := "localhost", port := 3306, user := "root", password := "pw",
    database := some "mydb", ssl := false, connectionLimit := 10 }

/-- A minimal valid argument bag (user and password only). -/
def goodArgs : RawConfig := { user := some (.jstr "root"), password := some (.jstr "pw") }

/-- What `ConfigSchema.parse` yields on `goodArgs`. -/
def goodParsed : Config :=
  { host := "localhost", port := 3306, user := "root", password := "pw",
    database := none, ssl := false, connectionLimit := 10 }

/-- A connected state holding a pool created from `sampleConfig`. -/
def connectedState : ManagerState :=
  { pool := some ⟨0, sampleConfig⟩, config := some sampleConfig,
    autoConnect := false, defaultConfig := none, nextId := 1 }

/-- A disconnected state with a stored default configuration. -/
def dcState : ManagerState :=
  { pool := none, config := none, autoConnect := true,
    defaultConfig := some sampleConfig, nextId := 0 }

/-! Helper lemmas shared by several claims. -/

/-- With an active pool, the shared auto-connect prologue is a no-op. -/
theorem ensureConnected_connected (w : World) (s : ManagerState) (p : Pool)
    (hp : s.pool = some p) : ensureConnected w s = (s, []) := by
  unfold ensureConnected
  rw [hp]

/-- Without a default configuration, the auto-connect prologue is a no-op. -/
theorem ensureConnected_no_default (w : World) (s : ManagerState)
    (hd : s.defaultConfig = none) : ensureConnected w s = (s, []) := by
  unfold ensureConnected
  rw [hd]
  cases s.pool <;> rfl

/-- The auto-connect trace never contains an `execute` call. -/
theorem execute_not_mem_connectCalls (w : World) (s : ManagerState)
    (sql : String) (ps : List String) :
    DriverCall.execute sql ps ∉ (connectWithDefaultConfig w s).2 := by
  unfold connectWithDefaultConfig
  rcases hd : s.defaultConfig with _ | d
  · simp
  · rcases hp : s.pool with _ | p <;> simp

/-- The prologue's trace never contains an `execute` call. -/
theorem execute_not_mem_ensureCalls (w : World) (s : ManagerState)
    (sql : String) (ps : List String) :
    DriverCall.execute sql ps ∉ (ensureConnected w s).2 := by
  unfold ensureConnected
  rcases hp : s.pool with _ | p
  · rcases hd : s.defaultConfig with _ | d
    · simp
    · exact execute_not_mem_connectCalls w s sql ps
  · cases s.defaultConfig <;> simp

/-- C10: `describe_table` (and `list_tables` with a database argument)
builds its SQL text by splicing the argument strings verbatim between
backtick characters with no escaping, even when an argument contains a
backtick, and that exact statement is what reaches the driver. -/
theorem C10_verbatim_splice :
    (∀ (t d : String) (cfgDb : Option String), d ≠ "" →
      describeTableQuery t (some d) cfgDb = "DESCRIBE `" ++ d ++ "`.`" ++ t ++ "`")
    ∧ (∀ (t : String), describeTableQuery t none none = "DESCRIBE `" ++ t ++ "`")
    ∧ (∀ (d : String) (cfgDb : Option String), d ≠ "" →
      listTablesQuery (some d) cfgDb = "SHOW TABLES FROM `" ++ d ++ "`")
    ∧ (∀ (w : World) (s : ManagerState) (t : String) (db : Option String) (p : Pool),
        s.pool = some p →
        (handleDescribeTable w s t db).calls =
          [DriverCall.execute (describeTableQuery t db (s.config.bind Config.database)) []]) := by
  refine ⟨?_, ?_, ?_, ?_⟩
  · intro t d cfgDb hd
    simp [describeTableQuery, jsOrStr, truthyStr, hd]
  · intro t
    simp [describeTableQuery, jsOrStr, truthyStr]
  · intro d cfgDb hd
    simp [listTablesQuery, jsOrStr, truthyStr, hd]
  · intro w s t db p hp
    have he := ensureConnected_connected w s p hp
    unfold handleDescribeTable
    rw [he]
    simp only [hp]
    cases w.execRes p.cfg (describeTableQuery t db (s.config.bind Config.database)) [] <;> simp

/-- C10 witness: concrete instantiations, including a backtick inside both
the database and the table argument. -/
theorem C10_witness :
    describeTableQuery "a`b" (some "x`") none =
      "DESCRIBE `" ++ "x`" ++ "`.`" ++ "a`b" ++ "`"
    ∧ (handleDescribeTable wOk connectedState "users" none).calls =
        [DriverCall.execute
          (describeTableQuery "users" none (connectedState.config.bind Config.database)) []] :=
  ⟨C10_verbatim_splice.1 "a`b" "x`" none (by decide),
   C10_verbatim_splice.2.2.2 wOk connectedState "users" none ⟨0, sampleConfig⟩ rfl⟩

/-- C7 counterexample: in a state whose current configuration has database
`mydb`, `list_tables` invoked without a database argument builds the
schema-qualified statement, not the unqualified `SHOW TABLES` the claim
asserts. -/
theorem C7_counterexample :
    (handleListTables wOk connectedState none).calls =
      [DriverCall.execute "SHOW TABLES FROM `mydb`" []]
    ∧ "SHOW TABLES FROM `mydb`" ≠ "SHOW TABLES" := by
  constructor
  · rfl
  · decide

/-- C7 (amended): with an explicit non-empty database argument the built
statement is qualified with that argument; without the argument (or with an
empty-string argument, which behaves as absent) the statement is qualified
with the currently configured database when that is set and non-empty, and
is the unqualified `SHOW TABLES` otherwise; the built statement is exactly
what reaches the driver. -/
theorem C7_list_tables_qualification :
    (∀ (d : String) (cfgDb : Option String), d ≠ "" →
      listTablesQuery (some d) cfgDb = "SHOW TABLES FROM `" ++ d ++ "`")
    ∧ (∀ (c : String), c ≠ "" →
      listTablesQuery none (some c) = "SHOW TABLES FROM `" ++ c ++ "`")
    ∧ listTablesQuery none none = "SHOW TABLES"
    ∧ listTablesQuery none (some "") = "SHOW TABLES"
    ∧ (∀ (cfgDb : Option String), listTablesQuery (some "") cfgDb = listTablesQuery none cfgDb)
    ∧ (∀ (w : World) (s : ManagerState) (db : Option String) (p : Pool),
        s.pool = some p →
        (handleListTables w s db).calls =
          [DriverCall.execute (listTablesQuery db (s.config.bind Config.database)) []]) := by
  refine ⟨?_, ?_, rfl, rfl, ?_, ?_⟩
  · intro d cfgDb hd
    simp [listTablesQuery, jsOrStr, truthyStr, hd]
  · intro c hc
    simp [listTablesQuery, jsOrStr, truthyStr, hc]
  · intro cfgDb
    simp [listTablesQuery, jsOrStr]
  · intro w s db p hp
    have he := ensureConnected_connected w s p hp
    unfold handleListTables
    rw [he]
    simp only [hp]
    cases w.execRes p.cfg (listTablesQuery db (s.config.bind Config.database)) [] <;> simp

/-- C7 witness: the amended statement at concrete inputs. -/
theorem C7_witness :
    listTablesQuery (some "otherdb") (some "mydb") = "SHOW TABLES FROM `" ++ "otherdb" ++ "`"
    ∧ listTablesQuery none (some "mydb") = "SHOW TABLES FROM `" ++ "mydb" ++ "`"
    ∧ (handleListTables wOk connectedState none).calls =
        [DriverCall.execute (listTablesQuery none (connectedState.config.bind Config.database)) []] :=
  ⟨C7_list_tables_qualification.1 "otherdb" (some "mydb") (by decide),
   C7_list_tables_qualification.2.1 "mydb" (by decide),
   C7_list_tables_qualification.2.2.2.2.2 wOk connectedState none ⟨0, sampleConfig⟩ rfl⟩

/-- C8: disconnect closes and clears pool and current configuration when a
pool is present, is a no-op returning the success text when not, and is
idempotent: a second disconnect reproduces the same final state and the
same result with no further driver calls. -/
theorem C8_disconnect_idempotent (s : ManagerState) :
    (handleDisconnect s).result = .ok disconnectOkText
    ∧ (∀ p : Pool, s.pool = some p →
        (handleDisconnect s).state = { s with pool := none, config := none }
        ∧ (handleDisconnect s).calls = [DriverCall.endPool p.id])
    ∧ (s.pool = none → handleDisconnect s = ⟨.ok disconnectOkText, s, []⟩)
    ∧ handleDisconnect (handleDisconnect s).state =
        ⟨(handleDisconnect s).result, (handleDisconnect s).state, []⟩ := by
  unfold handleDisconnect
  rcases hp : s.pool with _ | p <;> simp_all

/-- C8 witness: the theorem applied in a connected state, its inner
hypotheses discharged. -/
theorem C8_witness :
    ((handleDisconnect connectedState).state =
        { connectedState with pool := none, config := none }
      ∧ (handleDisconnect connectedState).calls = [DriverCall.endPool 0])
    ∧ handleDisconnect (handleDisconnect connectedState).state =
        ⟨(handleDisconnect connectedState).result, (handleDisconnect connectedState).state, []⟩ :=
  ⟨(C8_disconnect_idempotent connectedState).2.1 ⟨0, sampleConfig⟩ rfl,
   (C8_disconnect_idempotent connectedState).2.2.2⟩

/-- An argument bag with the user field missing. -/
def argsNoUser : RawConfig := { password := some (.jstr "pw") }

/-- A schema failure on the user or password field forces the whole parse
to fail. -/
theorem parse_none_of_bad_credentials (args : RawConfig)
    (h : parseReqStr args.user = none ∨ parseReqStr args.password = none) :
    ConfigSchema.parse args = none := by
  rcases h with h | h
  · cases h1 : parseStrD args.host "localhost" <;>
      cases h2 : parseNumD args.port 3306 <;>
        simp [ConfigSchema.parse, h1, h2, h]
  · cases h1 : parseStrD args.host "localhost" <;>
      cases h2 : parseNumD args.port 3306 <;>
        cases h3 : parseReqStr args.user <;>
          simp [ConfigSchema.parse, h1, h2, h3, h]

/-- C4: with the user or password field missing or wrongly typed, schema
validation fails, connect throws InvalidParams, and the manager state is
untouched — in particular no pool is created. -/
theorem C4_invalid_config_rejected (w : World) (s : ManagerState) (args : RawConfig)
    (h : parseReqStr args.user = none ∨ parseReqStr args.password = none) :
    ConfigSchema.parse args = none
    ∧ handleConnect w s args =
        ⟨.error ⟨.InvalidParams, "Failed to connect to MySQL: invalid configuration"⟩, s, []⟩
    ∧ (handleConnect w s args).state.pool = s.pool := by
  have hn := parse_none_of_bad_credentials args h
  refine ⟨hn, ?_, ?_⟩ <;> simp [handleConnect, hn]

/-- C4 witness: an argument bag with no user field. -/
theorem C4_witness :
    ConfigSchema.parse argsNoUser = none
    ∧ handleConnect wOk emptyState argsNoUser =
        ⟨.error ⟨.InvalidParams, "Failed to connect to MySQL: invalid configuration"⟩,
          emptyState, []⟩
    ∧ (handleConnect wOk emptyState argsNoUser).state.pool = emptyState.pool :=
  C4_invalid_config_rejected wOk emptyState argsNoUser (Or.inl rfl)

/-- With an active pool, `handleQuery` leaves the state unchanged and
issues exactly one driver call: the parameterized execute. -/
theorem handleQuery_connected (w : World) (s : ManagerState) (p : Pool)
    (q : String) (ps : List String) (hp : s.pool = some p) :
    (handleQuery w s q ps).state = s
    ∧ (handleQuery w s q ps).calls = [DriverCall.execute q ps] := by
  have he := ensureConnected_connected w s p hp
  cases hr : w.execRes p.cfg q ps <;> simp [handleQuery, he, hp, hr]

/-- C6: any `execute` driver call issued by `handleQuery` carries exactly
the input SQL text and exactly the input parameter list — parameters are
passed positionally and never concatenated into the statement text. -/
theorem C6_query_text_unchanged (w : World) (s : ManagerState) (q : String)
    (ps : List String) (sql : String) (ps2 : List String)
    (h : DriverCall.execute sql ps2 ∈ (handleQuery w s q ps).calls) :
    sql = q ∧ ps2 = ps := by
  have hcalls : (handleQuery w s q ps).calls = (ensureConnected w s).2
      ∨ (handleQuery w s q ps).calls =
          (ensureConnected w s).2 ++ [DriverCall.execute q ps] := by
    unfold handleQuery
    rcases hp : (ensureConnected w s).1.pool with _ | p
    · left; simp [hp]
    · right
      rcases hr : w.execRes p.cfg q ps with e | rows <;> simp [hp, hr]
  rcases hcalls with hc | hc <;> rw [hc] at h
  · exact absurd h (execute_not_mem_ensureCalls w s sql ps2)
  · rcases List.mem_append.mp h with h | h
    · exact absurd h (execute_not_mem_ensureCalls w s sql ps2)
    · simpa using h

/-- C6 witness: a hostile parameter value reaches the driver only as a
positional parameter of the unchanged statement. -/
theorem C6_witness :
    "SELECT * FROM t WHERE id = ?" = "SELECT * FROM t WHERE id = ?"
    ∧ ["5; DROP TABLE t"] = (["5; DROP TABLE t"] : List String) :=
  C6_query_text_unchanged wOk connectedState "SELECT * FROM t WHERE id = ?"
    ["5; DROP TABLE t"] "SELECT * FROM t WHERE id = ?" ["5; DROP TABLE t"] (by decide)

/-- C1 counterexample: a schema-valid configuration whose liveness check
fails makes connect report InvalidParams, but the manager state is NOT
left unchanged: both the pool reference and the current configuration
differ after the failed call. -/
theorem C1_counterexample :
    (ConfigSchema.parse goodArgs).isSome = true
    ∧ (handleConnect wDown emptyState goodArgs).result =
        .error ⟨.InvalidParams, "Failed to connect to MySQL: connection test failed"⟩
    ∧ emptyState.pool = none
    ∧ (handleConnect wDown emptyState goodArgs).state.pool ≠ emptyState.pool
    ∧ (handleConnect wDown emptyState goodArgs).state.config ≠ emptyState.config := by
  refine ⟨rfl, rfl, rfl, ?_, ?_⟩ <;> decide

/-- C1 (amended): when a schema-valid configuration's liveness check fails,
connect reports InvalidParams, but the current configuration has already
been replaced by the new configuration and the pool reference by the newly
created pool; only the default configuration is untouched. -/
theorem C1_failed_connect_state (w : World) (s : ManagerState) (args : RawConfig)
    (c : Config) (hc : ConfigSchema.parse args = some c) (hp : w.pingOk c = false) :
    (handleConnect w s args).result =
      .error ⟨.InvalidParams, "Failed to connect to MySQL: connection test failed"⟩
    ∧ (handleConnect w s args).state.config = some c
    ∧ (handleConnect w s args).state.pool = some ⟨s.nextId, c⟩
    ∧ (handleConnect w s args).state.defaultConfig = s.defaultConfig := by
  simp [handleConnect, hc, hp]

/-- C1 witness: the amended statement at a concrete failing world. -/
theorem C1_witness :
    (handleConnect wDown emptyState goodArgs).result =
      .error ⟨.InvalidParams, "Failed to connect to MySQL: connection test failed"⟩
    ∧ (handleConnect wDown emptyState goodArgs).state.config = some goodParsed
    ∧ (handleConnect wDown emptyState goodArgs).state.pool =
        some ⟨emptyState.nextId, goodParsed⟩
    ∧ (handleConnect wDown emptyState goodArgs).state.defaultConfig =
        emptyState.defaultConfig :=
  C1_failed_connect_state wDown emptyState goodArgs goodParsed rfl rfl

/-- C2 counterexample: a failed auto-connect does NOT leave the manager
disconnected — a pool reference is retained even though the liveness ping
failed. -/
theorem C2_counterexample :
    dcState.pool = none
    ∧ dcState.defaultConfig.isSome = true
    ∧ wDown.pingOk sampleConfig = false
    ∧ (connectWithDefaultConfig wDown dcState).1.pool ≠ none := by
  refine ⟨rfl, rfl, rfl, ?_⟩
  decide

/-- C2 (amended): when auto-connect's liveness check fails, the failure is
only logged (nothing is thrown), but the manager retains the newly created
pool reference and configuration; a subsequent query therefore observes a
connected state and goes straight to execute without retrying
auto-connect. -/
theorem C2_failed_autoconnect_retained (w : World) (s : ManagerState) (d : Config)
    (q : String) (ps : List String)
    (hd : s.defaultConfig = some d) (_hp : w.pingOk d = false) :
    (connectWithDefaultConfig w s).1.pool = some ⟨s.nextId, d⟩
    ∧ (connectWithDefaultConfig w s).1.config = some d
    ∧ (handleQuery w (connectWithDefaultConfig w s).1 q ps).state =
        (connectWithDefaultConfig w s).1
    ∧ (handleQuery w (connectWithDefaultConfig w s).1 q ps).calls =
        [DriverCall.execute q ps] := by
  have h1 : (connectWithDefaultConfig w s).1.pool = some ⟨s.nextId, d⟩ := by
    simp [connectWithDefaultConfig, hd]
  have h2 : (connectWithDefaultConfig w s).1.config = some d := by
    simp [connectWithDefaultConfig, hd]
  exact ⟨h1, h2,
    (handleQuery_connected w _ ⟨s.nextId, d⟩ q ps h1).1,
    (handleQuery_connected w _ ⟨s.nextId, d⟩ q ps h1).2⟩

/-- C2 witness: the amended statement at a concrete failing world. -/
theorem C2_witness :
    (connectWithDefaultConfig wDown dcState).1.pool = some ⟨dcState.nextId, sampleConfig⟩
    ∧ (connectWithDefaultConfig wDown dcState).1.config = some sampleConfig
    ∧ (handleQuery wDown (connectWithDefaultConfig wDown dcState).1 "SELECT 1" []).state =
        (connectWithDefaultConfig wDown dcState).1
    ∧ (handleQuery wDown (connectWithDefaultConfig wDown dcState).1 "SELECT 1" []).calls =
        [DriverCall.execute "SELECT 1" []] :=
  C2_failed_autoconnect_retained wDown dcState sampleConfig "SELECT 1" [] rfl rfl

/-- With no pool and no default configuration, a query fails InvalidRequest
and touches nothing. -/
theorem handleQuery_disconnected (w : World) (s : ManagerState)
    (q : String) (ps : List String) (hp : s.pool = none) (hd : s.defaultConfig = none) :
    handleQuery w s q ps = ⟨.error ⟨.InvalidRequest, notConnectedText⟩, s, []⟩ := by
  have he := ensureConnected_no_default w s hd
  unfold handleQuery
  rw [he]
  simp [hp]

/-- With no pool and a default configuration, a query auto-connects and
then executes against the default configuration. -/
theorem handleQuery_after_autoconnect (w : World) (s : ManagerState)
    (q : String) (ps : List String) (d : Config)
    (hp : s.pool = none) (hd : s.defaultConfig = some d) :
    handleQuery w s q ps =
      { result :=
          match w.execRes d q ps with
          | .ok rows => .ok rows
          | .error e => .error ⟨.InvalidParams, "Query execution failed: " ++ e⟩,
        state := (connectWithDefaultConfig w s).1,
        calls := (connectWithDefaultConfig w s).2 ++ [DriverCall.execute q ps] } := by
  have he : ensureConnected w s = connectWithDefaultConfig w s := by
    unfold ensureConnected
    rw [hp, hd]
  have hpool : (connectWithDefaultConfig w s).1.pool = some ⟨s.nextId, d⟩ := by
    simp [connectWithDefaultConfig, hd]
  unfold handleQuery
  rw [he]
  rcases hr : w.execRes d q ps with e | rows <;> simp [hpool, hr]

/-- C3: a query in a poolless state auto-connects first when a default
configuration exists; if there is still no pool afterwards it fails
InvalidRequest; and in particular connect-then-disconnect followed by a
query fails InvalidRequest when no default configuration can trigger
auto-connect. -/
theorem C3_query_precondition (w : World) (s : ManagerState) (q : String)
    (ps : List String) (h : s.pool = none) :
    (s.defaultConfig = none →
      handleQuery w s q ps = ⟨.error ⟨.InvalidRequest, notConnectedText⟩, s, []⟩)
    ∧ (∀ d : Config, s.defaultConfig = some d →
      (handleQuery w s q ps).state = (connectWithDefaultConfig w s).1
      ∧ ∃ rest, (handleQuery w s q ps).calls = (connectWithDefaultConfig w s).2 ++ rest)
    ∧ ((handleQuery w s q ps).state.pool = none →
      (handleQuery w s q ps).result = .error ⟨.InvalidRequest, notConnectedText⟩)
    ∧ (∀ (args : RawConfig) (c : Config), ConfigSchema.parse args = some c →
        w.pingOk c = true → s.defaultConfig = none →
        (handleQuery w (handleDisconnect (handleConnect w s args).state).state q ps).result
          = .error ⟨.InvalidRequest, notConnectedText⟩) := by
  refine ⟨?_, ?_, ?_, ?_⟩
  · intro hd
    exact handleQuery_disconnected w s q ps h hd
  · intro d hd
    rw [handleQuery_after_autoconnect w s q ps d h hd]
    exact ⟨rfl, [DriverCall.execute q ps], rfl⟩
  · rcases hd : s.defaultConfig with _ | d
    · rw [handleQuery_disconnected w s q ps h hd]
      intro _
      rfl
    · rw [handleQuery_after_autoconnect w s q ps d h hd]
      intro hpool
      exfalso
      have : (connectWithDefaultConfig w s).1.pool = some ⟨s.nextId, d⟩ := by
        simp [connectWithDefaultConfig, hd]
      simp [this] at hpool
  · intro args c hc hping hd
    have h2 : (handleConnect w s args).state =
        { s with config := some c, pool := some ⟨s.nextId, c⟩, nextId := s.nextId + 1 } := by
      simp [handleConnect, hc, hping]
    have h3 : (handleDisconnect (handleConnect w s args).state).state =
        { s with config := none, pool := none, nextId := s.nextId + 1 } := by
      rw [h2]
      simp [handleDisconnect]
    rw [handleQuery_disconnected w _ q ps (by rw [h3]) (by rw [h3]; exact hd)]

/-- C3 witness: both failure modes at concrete inputs. -/
theorem C3_witness :
    handleQuery wOk emptyState "SELECT 1" [] =
      ⟨.error ⟨.InvalidRequest, notConnectedText⟩, emptyState, []⟩
    ∧ (handleQuery wOk
        (handleDisconnect (handleConnect wOk emptyState goodArgs).state).state
        "SELECT 1" []).result = .error ⟨.InvalidRequest, notConnectedText⟩ :=
  ⟨(C3_query_precondition wOk emptyState "SELECT 1" [] rfl).1 rfl,
   (C3_query_precondition wOk emptyState "SELECT 1" [] rfl).2.2.2 goodArgs goodParsed
     rfl rfl rfl⟩

/-- C5: setupPersistent, then disconnect, then query: disconnect keeps the
default configuration and the auto-connect flag, so the query auto-connects
(a fresh pool for the stored configuration appears) instead of failing
InvalidRequest; when the driver accepts the statement the rows come back. -/
theorem C5_persistent_reconnect (w : World) (s : ManagerState) (args : RawConfig)
    (c : Config) (q : String) (ps : List String)
    (hc : ConfigSchema.parse args = some c) :
    (handleDisconnect (handleSetupPersistent w s args).state).state.defaultConfig = some c
    ∧ (handleDisconnect (handleSetupPersistent w s args).state).state.autoConnect = true
    ∧ (handleDisconnect (handleSetupPersistent w s args).state).state.pool = none
    ∧ (∃ n, (handleQuery w (handleDisconnect (handleSetupPersistent w s args).state).state
        q ps).state.pool = some ⟨n, c⟩)
    ∧ (handleQuery w (handleDisconnect (handleSetupPersistent w s args).state).state
        q ps).state.config = some c
    ∧ (handleQuery w (handleDisconnect (handleSetupPersistent w s args).state).state
        q ps).result ≠ .error ⟨.InvalidRequest, notConnectedText⟩
    ∧ (∀ rows, w.execRes c q ps = .ok rows →
        (handleQuery w (handleDisconnect (handleSetupPersistent w s args).state).state
          q ps).result = .ok rows) := by
  have h1 : (handleSetupPersistent w s args).state =
      { s with
          defaultConfig := some c
          autoConnect := true
          config := some c
          pool := some ⟨s.nextId, c⟩
          nextId := s.nextId + 1 } := by
    rcases hpl : s.pool with _ | p <;>
      simp [handleSetupPersistent, hc, connectWithDefaultConfig, hpl]
  have h2 : (handleDisconnect (handleSetupPersistent w s args).state).state =
      { s with
          defaultConfig := some c
          autoConnect := true
          config := none
          pool := none
          nextId := s.nextId + 1 } := by
    rw [h1]
    simp [handleDisconnect]
  have hq := handleQuery_after_autoconnect w
    (handleDisconnect (handleSetupPersistent w s args).state).state q ps c
    (by rw [h2]) (by rw [h2])
  have hpool : (connectWithDefaultConfig w
      (handleDisconnect (handleSetupPersistent w s args).state).state).1.pool =
      some ⟨s.nextId + 1, c⟩ := by
    rw [h2]
    simp [connectWithDefaultConfig]
  have hcfg : (connectWithDefaultConfig w
      (handleDisconnect (handleSetupPersistent w s args).state).state).1.config =
      some c := by
    rw [h2]
    simp [connectWithDefaultConfig]
  refine ⟨by rw [h2], by rw [h2], by rw [h2], ⟨s.nextId + 1, ?_⟩, ?_, ?_, ?_⟩
  · rw [hq]
    exact hpool
  · rw [hq]
    exact hcfg
  · rw [hq]
    rcases hr : w.execRes c q ps with e | rows <;> simp [hr]
  · intro rows hrow
    rw [hq]
    simp [hrow]

/-- C5 witness: the whole sequence at concrete inputs returns the rows. -/
theorem C5_witness :
    (handleQuery wOk
      (handleDisconnect (handleSetupPersistent wOk emptyState goodArgs).state).state
      "SELECT 1" []).result = .ok "[]" :=
  (C5_persistent_reconnect wOk emptyState goodArgs goodParsed "SELECT 1" [] rfl).2.2.2.2.2.2
    "[]" rfl

/-- The invariant of C9: an active pool implies a current configuration. -/
def PoolHasConfig (s : ManagerState) : Prop :=
  s.pool.isSome = true → s.config.isSome = true

/-- Auto-connect preserves the invariant (it always writes the
configuration before the pool). -/
theorem connectWithDefaultConfig_inv (w : World) (s : ManagerState)
    (h : PoolHasConfig s) : PoolHasConfig (connectWithDefaultConfig w s).1 := by
  unfold connectWithDefaultConfig
  rcases hd : s.defaultConfig with _ | d
  · exact h
  · intro _
    simp

/-- The auto-connect prologue preserves the invariant. -/
theorem ensureConnected_inv (w : World) (s : ManagerState)
    (h : PoolHasConfig s) : PoolHasConfig (ensureConnected w s).1 := by
  unfold ensureConnected
  rcases hp : s.pool with _ | p <;> rcases hd : s.defaultConfig with _ | d
  · exact h
  · exact connectWithDefaultConfig_inv w s h
  · exact h
  · exact h

/-- `handleQuery` only changes state through the prologue. -/
theorem handleQuery_state (w : World) (s : ManagerState) (q : String)
    (ps : List String) : (handleQuery w s q ps).state = (ensureConnected w s).1 := by
  unfold handleQuery
  rcases hp : (ensureConnected w s).1.pool with _ | p
  · simp [hp]
  · rcases hr : w.execRes p.cfg q ps with e | rows <;> simp [hp, hr]

/-- `handleListDatabases` only changes state through the prologue. -/
theorem handleListDatabases_state (w : World) (s : ManagerState) :
    (handleListDatabases w s).state = (ensureConnected w s).1 := by
  unfold handleListDatabases
  rcases hp : (ensureConnected w s).1.pool with _ | p
  · simp [hp]
  · rcases hr : w.execRes p.cfg "SHOW DATABASES" [] with e | rows <;> simp [hp, hr]

/-- `handleListTables` only changes state through the prologue. -/
theorem handleListTables_state (w : World) (s : ManagerState) (db : Option String) :
    (handleListTables w s db).state = (ensureConnected w s).1 := by
  unfold handleListTables
  rcases hp : (ensureConnected w s).1.pool with _ | p
  · simp [hp]
  · rcases hr : w.execRes p.cfg
        (listTablesQuery db ((ensureConnected w s).1.config.bind Config.database)) []
      with e | rows <;> simp [hp, hr]

/-- `handleDescribeTable` only changes state through the prologue. -/
theorem handleDescribeTable_state (w : World) (s : ManagerState) (t : String)
    (db : Option String) :
    (handleDescribeTable w s t db).state = (ensureConnected w s).1 := by
  unfold handleDescribeTable
  rcases hp : (ensureConnected w s).1.pool with _ | p
  · simp [hp]
  · rcases hr : w.execRes p.cfg
        (describeTableQuery t db ((ensureConnected w s).1.config.bind Config.database)) []
      with e | rows <;> simp [hp, hr]

/-- `handleConnect` preserves the invariant. -/
theorem handleConnect_inv (w : World) (s : ManagerState) (args : RawConfig)
    (h : PoolHasConfig s) : PoolHasConfig (handleConnect w s args).state := by
  rcases hc : ConfigSchema.parse args with _ | c
  · simp only [handleConnect, hc]
    exact h
  · intro _
    cases hping : w.pingOk c <;> simp [handleConnect, hc, hping]

/-- `handleDisconnect` preserves the invariant. -/
theorem handleDisconnect_inv (s : ManagerState)
    (h : PoolHasConfig s) : PoolHasConfig (handleDisconnect s).state := by
  unfold handleDisconnect
  rcases hp : s.pool with _ | p
  · exact h
  · intro hfalse
    simp at hfalse

/-- `handleSetupPersistent` preserves the invariant. -/
theorem handleSetupPersistent_inv (w : World) (s : ManagerState) (args : RawConfig)
    (h : PoolHasConfig s) : PoolHasConfig (handleSetupPersistent w s args).state := by
  rcases hc : ConfigSchema.parse args with _ | c
  · simp only [handleSetupPersistent, hc]
    exact h
  · intro _
    rcases hpl : s.pool with _ | p <;>
      simp [handleSetupPersistent, hc, connectWithDefaultConfig, hpl]

/-- The startup state satisfies the invariant. -/
theorem initState_inv (w : World) (e : Env) : PoolHasConfig (initState w e) := by
  by_cases hcred :
      (defaultConfigFromEnv e).user ≠ "" ∧ (defaultConfigFromEnv e).password ≠ ""
  · simp only [initState, if_pos hcred]
    intro _
    simp [connectWithDefaultConfig]
  · simp only [initState, if_neg hcred]
    intro hfalse
    simp at hfalse

/-- C9: in every reachable manager state, an active pool reference implies
a current configuration — every operation assigns the configuration before
(or together with) the pool, and disconnect clears both. -/
theorem C9_pool_implies_config (s : ManagerState) (hs : Reachable s) :
    PoolHasConfig s := by
  induction hs with
  | init w e => exact initState_inv w e
  | step hr hst ih =>
    cases hst with
    | connect w1 s1 args => exact handleConnect_inv _ _ args ih
    | query w1 s1 q ps =>
      rw [handleQuery_state]
      exact ensureConnected_inv _ _ ih
    | listDatabases w1 s1 =>
      rw [handleListDatabases_state]
      exact ensureConnected_inv _ _ ih
    | listTables w1 s1 db =>
      rw [handleListTables_state]
      exact ensureConnected_inv _ _ ih
    | describeTable w1 s1 t db =>
      rw [handleDescribeTable_state]
      exact ensureConnected_inv _ _ ih
    | disconnect s1 => exact handleDisconnect_inv _ ih
    | setupPersistent w1 s1 args => exact handleSetupPersistent_inv _ _ args ih
    | status w1 s1 => exact ih

/-- An environment with credentials, triggering startup auto-connect. -/
def envFull : Env := { user := some "root", password := some "pw" }

/-- C9 witness: a reachable state with an active pool indeed carries a
configuration. -/
theorem C9_witness : (initState wOk envFull).config.isSome = true :=
  C9_pool_implies_config (initState wOk envFull) (Reachable.init wOk envFull) (by decide)

end MySQLMCP
